import Mathlib

/-!
Verification of the two-pass fractal demo (`hello_triangle2/src/main.rs`).

The development shallowly embeds the parts of the program the properties
talk about:

* `get_mouse` — the pointer-protocol decoder (source lines 492-557),
  modelled as a pure function over the sequence of outcomes of successive
  non-blocking `read` calls on the device file;
* `init_shaders` — the shader/program/location initialization
  (source lines 278-425), modelled as a state machine over a small GL
  machine state with an oracle supplying attribute/uniform locations;
* the GL call traces of `draw_mandelbrot_to_texture`, `draw_triangles`
  and the `demo` main loop, for the sequencing properties.

Machine integers: `u32` values (screen sizes, handles) are `Nat`,
`i32`/`GLint` values are `Int`.  The `i32 → u32` cast is explicit
(`toU32`), the `u8 → i8` reinterpretation is explicit (`toI8`).
-/

/-! ## Pointer-protocol decoder (`get_mouse`) -/

/-- The 3-byte report buffer `buf : [u8; 3]` as it stands after a `read`
call: `b0` is the status byte, `b1`/`b2` the raw delta bytes. -/
structure Packet where
  b0 : Nat
  b1 : Nat
  b2 : Nat
deriving DecidableEq, Repr

/-- Outcome of one `mouse_dev.read(&mut buf)` call: `ok count buf` for
`Ok(count)` with the buffer then holding `buf`, `err` for any `Err(_)`. -/
inductive ReadResult where
  | ok (count : Nat) (buf : Packet)
  | err
deriving DecidableEq, Repr

/-- Result of a `get_mouse` call: `ret terminate outx outy` is a normal
return with final values of `*outx`/`*outy`; `outOfInput` means the
modelled sequence of read outcomes was exhausted while the source's
`loop` was still spinning (the call has not returned yet). -/
inductive GMOutcome where
  | ret (terminate : Bool) (outx outy : Int)
  | outOfInput
deriving DecidableEq, Repr

/-- `buf[i] as i8`: reinterpret a byte as a signed 8-bit integer. -/
def toI8 (b : Nat) : Int :=
  if b % 256 < 128 then ((b % 256 : Nat) : Int) else ((b % 256 : Nat) : Int) - 256

/-- `const X_SIGN: u8 = 1 << 4;` -/
def X_SIGN : Nat := 1 <<< 4

/-- `const Y_SIGN: u8 = 1 << 5;` -/
def Y_SIGN : Nat := 1 <<< 5

/-- The body of `get_mouse` (source lines 492-557).  `outx`/`outy` are the
values behind the two `&mut i32` arguments, `x`/`y` the local copies made
at entry; the list is the sequence of outcomes of the successive `read`
calls the `loop` performs.  Inside the loop nothing mutates `x`, `y`,
`*outx` or `*outy`; a short read returns `false` (writing `x`/`y` back
only under the source's `!= 0` guards), a packet without bit 3 is
dropped and the loop re-reads, a packet with bit 3 breaks out of the
loop and is processed: button bits return `true` untouched, otherwise
the delta (sign-overflow corrected) is applied and clamped. -/
def get_mouse_go (width height : Nat) (outx outy x y : Int) :
    List ReadResult → GMOutcome
  | [] => GMOutcome.outOfInput
  | ReadResult.err :: rest =>
      -- `_ => {}`: the error is ignored and the loop re-reads
      get_mouse_go width height outx outy x y rest
  | ReadResult.ok count buf :: rest =>
      let buttons := buf.b0
      let dx := toI8 buf.b1
      let dy := toI8 buf.b2
      if count < 3 then
        GMOutcome.ret false (if outx ≠ 0 then x else outx)
          (if outy ≠ 0 then y else outy)
      else if buttons &&& 8 ≠ 0 then
        -- `break`: fall through to the post-loop processing
        if buttons &&& 3 ≠ 0 then
          GMOutcome.ret true outx outy
        else
          let x := x + dx
          let y := y + dy
          let x := if buttons &&& X_SIGN ≠ 0 then x - 256 else x
          let y := if buttons &&& Y_SIGN ≠ 0 then y - 256 else y
          let x := if x < 0 then 0 else x
          let y := if y < 0 then 0 else y
          let x := if (width : Int) < x then (width : Int) else x
          let y := if (height : Int) < y then (height : Int) else y
          GMOutcome.ret false x y
      else
        get_mouse_go width height outx outy x y rest

/-- `get_mouse`: the local `x`/`y` start as copies of `*outx`/`*outy`. -/
def get_mouse (width height : Nat) (outx outy : Int)
    (reads : List ReadResult) : GMOutcome :=
  get_mouse_go width height outx outy outx outy reads

/-- Clamp an integer into `[0, bound]`. -/
def clampTo (bound : Nat) (v : Int) : Int := max 0 (min v (bound : Int))

lemma clamp_ifs_eq (w : Nat) (v : Int) :
    (if (w : Int) < (if v < 0 then 0 else v) then (w : Int)
     else (if v < 0 then 0 else v)) = clampTo w v := by
  unfold clampTo
  rcases max_cases (0 : Int) (min v (w : Int)) with ⟨h1, h2⟩ | ⟨h1, h2⟩ <;>
    rcases min_cases v (w : Int) with ⟨h3, h4⟩ | ⟨h3, h4⟩ <;>
      split_ifs <;> omega

/-- C1: for every screen size, pointer position, and 3-byte packet with
the sync-marker bit (bit 3) set and both button bits clear, `get_mouse`
returns `terminate = false` and sets the position to the clamp into
`[0, width] × [0, height]` of the signed deltas, corrected by `-256`
when the corresponding sign-overflow flag (bit 4 / bit 5) is set. -/
theorem get_mouse_motion_clamped (width height : Nat) (outx outy : Int)
    (count : Nat) (b0 b1 b2 : Nat) (rest : List ReadResult)
    (hc : ¬ count < 3) (hsync : b0 &&& 8 ≠ 0) (hbtn : b0 &&& 3 = 0) :
    get_mouse width height outx outy (ReadResult.ok count ⟨b0, b1, b2⟩ :: rest)
      = GMOutcome.ret false
          (clampTo width
            (outx + toI8 b1 - (if b0 &&& X_SIGN ≠ 0 then 256 else 0)))
          (clampTo height
            (outy + toI8 b2 - (if b0 &&& Y_SIGN ≠ 0 then 256 else 0))) := by
  rw [get_mouse, get_mouse_go]
  simp only [hc, if_false, hsync, if_true, hbtn, ne_eq,
    not_true_eq_false, if_false, ite_not]
  rw [← clamp_ifs_eq width, ← clamp_ifs_eq height]
  congr 1 <;> split_ifs <;> omega

/-- C1 witness: pointer at `x = 10` on a 1920×1080 screen, packet with
sync marker and horizontal overflow flag set (`b0 = 24`) and `dx = 10`:
the raw value is `-236` and the clamped result is `x = 0`. -/
theorem get_mouse_motion_clamped_witness :
    (¬ (3 : Nat) < 3) ∧ ((24 : Nat) &&& 8 ≠ 0) ∧ ((24 : Nat) &&& 3 = 0) ∧
    get_mouse 1920 1080 10 400 [ReadResult.ok 3 ⟨24, 10, 0⟩]
      = GMOutcome.ret false
          (clampTo 1920 (10 + toI8 10 - (if (24 : Nat) &&& X_SIGN ≠ 0 then 256 else 0)))
          (clampTo 1080 (400 + toI8 0 - (if (24 : Nat) &&& Y_SIGN ≠ 0 then 256 else 0)))
      ∧ (10 + toI8 10 - (if (24 : Nat) &&& X_SIGN ≠ 0 then 256 else 0) = -236)
      ∧ clampTo 1920 (-236) = 0 :=
  ⟨by decide, by decide, by decide,
    get_mouse_motion_clamped 1920 1080 10 400 3 24 10 0 []
      (by decide) (by decide) (by decide),
    by decide, by decide⟩

/-- C2: a 3-byte packet with the sync marker set and a button bit set
makes `get_mouse` return `terminate = true` with the position
byte-for-byte unchanged, regardless of any further input. -/
theorem get_mouse_button_terminates (width height : Nat) (outx outy : Int)
    (count : Nat) (b : Packet) (rest : List ReadResult)
    (hc : ¬ count < 3) (hsync : b.b0 &&& 8 ≠ 0) (hbtn : b.b0 &&& 3 ≠ 0) :
    get_mouse width height outx outy (ReadResult.ok count b :: rest)
      = GMOutcome.ret true outx outy := by
  rw [get_mouse, get_mouse_go]
  simp [hc, hsync, hbtn]

/-- C2 witness: packet `[0b00001001, 0, 0]` (sync + button bit 0). -/
theorem get_mouse_button_terminates_witness :
    (¬ (3 : Nat) < 3) ∧ ((9 : Nat) &&& 8 ≠ 0) ∧ ((9 : Nat) &&& 3 ≠ 0) ∧
    get_mouse 1920 1080 800 400 [ReadResult.ok 3 ⟨9, 55, 77⟩]
      = GMOutcome.ret true 800 400 :=
  ⟨by decide, by decide, by decide,
    get_mouse_button_terminates 1920 1080 800 400 3 ⟨9, 55, 77⟩ []
      (by decide) (by decide) (by decide)⟩

/-- C3: a successful read of fewer than 3 bytes makes `get_mouse` return
`terminate = false` with the position unchanged. -/
theorem get_mouse_short_read_no_update (width height : Nat) (outx outy : Int)
    (count : Nat) (b : Packet) (rest : List ReadResult)
    (hc : count < 3) :
    get_mouse width height outx outy (ReadResult.ok count b :: rest)
      = GMOutcome.ret false outx outy := by
  rw [get_mouse, get_mouse_go]
  simp only [hc, if_true]
  congr 1 <;> split_ifs <;> rfl

/-- C3 witness: a zero-byte read leaves `(800, 400)` unchanged. -/
theorem get_mouse_short_read_no_update_witness :
    (0 : Nat) < 3 ∧
    get_mouse 1920 1080 800 400 [ReadResult.ok 0 ⟨0, 0, 0⟩]
      = GMOutcome.ret false 800 400 :=
  ⟨by decide,
    get_mouse_short_read_no_update 1920 1080 800 400 0 ⟨0, 0, 0⟩ [] (by decide)⟩

/-- A read outcome the source's `loop` silently drops and re-reads after:
an `Err(_)` result, or a full packet whose sync-marker bit is clear. -/
def droppedByLoop : ReadResult → Prop
  | ReadResult.err => True
  | ReadResult.ok count buf => ¬ count < 3 ∧ buf.b0 &&& 8 = 0

lemma get_mouse_go_dropped (width height : Nat) (outx outy x y : Int)
    (r : ReadResult) (rest : List ReadResult) (hr : droppedByLoop r) :
    get_mouse_go width height outx outy x y (r :: rest)
      = get_mouse_go width height outx outy x y rest := by
  cases r with
  | err => rfl
  | ok count buf =>
      obtain ⟨hc, hs⟩ := hr
      rw [get_mouse_go]
      simp [hc, hs]

lemma get_mouse_go_all_dropped (width height : Nat) (outx outy x y : Int)
    (reads : List ReadResult) (hall : ∀ r ∈ reads, droppedByLoop r) :
    get_mouse_go width height outx outy x y reads = GMOutcome.outOfInput := by
  induction reads with
  | nil => rfl
  | cons r rest ih =>
      rw [get_mouse_go_dropped width height outx outy x y r rest
        (hall r (List.mem_cons_self r rest))]
      exact ih fun r' hr' => hall r' (List.mem_cons_of_mem r hr')

/-- C4: a full packet whose sync-marker bit is clear is discarded as
mid-stream noise — the call neither terminates nor applies a delta, it
just continues with the remaining reads — and on a stream consisting
entirely of such packets (or failed reads) the call never returns,
however long the stream. -/
theorem get_mouse_desync_unbounded (width height : Nat) (outx outy : Int)
    (count : Nat) (b : Packet) (rest reads : List ReadResult)
    (hc : ¬ count < 3) (hsync : b.b0 &&& 8 = 0)
    (hall : ∀ r ∈ reads, droppedByLoop r) :
    get_mouse width height outx outy (ReadResult.ok count b :: rest)
        = get_mouse width height outx outy rest
    ∧ get_mouse width height outx outy reads = GMOutcome.outOfInput :=
  ⟨get_mouse_go_dropped width height outx outy outx outy _ rest ⟨hc, hsync⟩,
    get_mouse_go_all_dropped width height outx outy outx outy reads hall⟩

/-- C4 witness: two consecutive marker-less packets are both dropped and
the call has not returned after consuming them. -/
theorem get_mouse_desync_unbounded_witness :
    (¬ (3 : Nat) < 3) ∧ ((7 : Nat) &&& 8 = 0) ∧
    (∀ r ∈ [ReadResult.ok 3 ⟨7, 1, 2⟩, ReadResult.ok 3 ⟨0, 9, 9⟩],
      droppedByLoop r) ∧
    (get_mouse 1920 1080 800 400 [ReadResult.ok 3 ⟨7, 1, 2⟩]
        = get_mouse 1920 1080 800 400 []
      ∧ get_mouse 1920 1080 800 400
          [ReadResult.ok 3 ⟨7, 1, 2⟩, ReadResult.ok 3 ⟨0, 9, 9⟩]
          = GMOutcome.outOfInput) :=
  ⟨by decide, by decide,
    by intro r hr; fin_cases hr <;> exact ⟨by decide, by decide⟩,
    get_mouse_desync_unbounded 1920 1080 800 400 3 ⟨7, 1, 2⟩ []
      [ReadResult.ok 3 ⟨7, 1, 2⟩, ReadResult.ok 3 ⟨0, 9, 9⟩]
      (by decide) (by decide)
      (by intro r hr; fin_cases hr <;> exact ⟨by decide, by decide⟩)⟩

lemma get_mouse_go_ret_has_ok (width height : Nat) (outx outy x y : Int)
    (reads : List ReadResult) (t : Bool) (nx ny : Int)
    (hrun : get_mouse_go width height outx outy x y reads
      = GMOutcome.ret t nx ny) :
    ∃ c b, ReadResult.ok c b ∈ reads := by
  induction reads with
  | nil => exact absurd hrun (by rw [get_mouse_go]; simp)
  | cons r rest ih =>
      cases r with
      | err =>
          obtain ⟨c, b, hm⟩ := ih (by rw [get_mouse_go] at hrun; exact hrun)
          exact ⟨c, b, List.mem_cons_of_mem _ hm⟩
      | ok c b => exact ⟨c, b, List.mem_cons_self _ _⟩

/-- C10: an `Err(_)` from the non-blocking read is silently swallowed —
the call just continues with the next read, position untouched; a stream
of nothing but errors never makes the call return, however long; and any
call that does return consumed at least one successful read. -/
theorem get_mouse_err_swallowed (width height : Nat) (outx outy : Int)
    (rest reads : List ReadResult) (n : Nat) (t : Bool) (nx ny : Int)
    (hrun : get_mouse width height outx outy reads = GMOutcome.ret t nx ny) :
    get_mouse width height outx outy (ReadResult.err :: rest)
        = get_mouse width height outx outy rest
    ∧ get_mouse width height outx outy (List.replicate n ReadResult.err)
        = GMOutcome.outOfInput
    ∧ ∃ c b, ReadResult.ok c b ∈ reads := by
  refine ⟨rfl, ?_, get_mouse_go_ret_has_ok width height outx outy outx outy
    reads t nx ny hrun⟩
  exact get_mouse_go_all_dropped width height outx outy outx outy _
    (by intro r hr; rw [List.eq_of_mem_replicate hr]; trivial)

/-- C10 witness: a decode that retries over two errors and then returns
via a short read; the error-only stream of length 5 does not return. -/
theorem get_mouse_err_swallowed_witness :
    get_mouse 1920 1080 800 400
        [ReadResult.err, ReadResult.err, ReadResult.ok 0 ⟨0, 0, 0⟩]
        = GMOutcome.ret false 800 400 ∧
    (get_mouse 1920 1080 800 400 (ReadResult.err :: [ReadResult.err])
        = get_mouse 1920 1080 800 400 [ReadResult.err]
      ∧ get_mouse 1920 1080 800 400 (List.replicate 5 ReadResult.err)
          = GMOutcome.outOfInput
      ∧ ∃ c b, ReadResult.ok c b ∈
          [ReadResult.err, ReadResult.err, ReadResult.ok 0 ⟨0, 0, 0⟩]) :=
  ⟨by decide,
    get_mouse_err_swallowed 1920 1080 800 400 [ReadResult.err]
      [ReadResult.err, ReadResult.err, ReadResult.ok 0 ⟨0, 0, 0⟩]
      5 false 800 400 (by decide)⟩

/-! ## Pointer state invariant (C5) -/

/-- `demo`'s initial pointer position: `let mut x: i32 = 800i32;`. -/
def demo_start_x : Int := 800

/-- `demo`'s initial pointer position: `let mut y: i32 = 400i32;`. -/
def demo_start_y : Int := 400

lemma get_mouse_go_inv (width height : Nat) (reads : List ReadResult) :
    ∀ (outx outy x y : Int) (t : Bool) (nx ny : Int),
    0 ≤ outx → outx ≤ width → 0 ≤ outy → outy ≤ height →
    0 ≤ x → x ≤ width → 0 ≤ y → y ≤ height →
    get_mouse_go width height outx outy x y reads = GMOutcome.ret t nx ny →
    0 ≤ nx ∧ nx ≤ width ∧ 0 ≤ ny ∧ ny ≤ height := by
  induction reads with
  | nil =>
      intro _ _ _ _ _ _ _ _ _ _ _ _ _ _ _ hrun
      exact absurd hrun (by rw [get_mouse_go]; simp)
  | cons r rest ih =>
      intro outx outy x y t nx ny h1 h2 h3 h4 h5 h6 h7 h8 hrun
      cases r with
      | err => exact ih outx outy x y t nx ny h1 h2 h3 h4 h5 h6 h7 h8 hrun
      | ok count buf =>
          simp only [get_mouse_go] at hrun
          split_ifs at hrun <;>
            first
              | exact ih outx outy x y t nx ny h1 h2 h3 h4 h5 h6 h7 h8 hrun
              | (injection hrun with ht hx hy; omega)

/-- C5 counterexample: the claim asserts the invariant
`0 ≤ x ≤ width ∧ 0 ≤ y ≤ height` holds at initialization for the current
screen dimensions, but `demo` fixes the start position at `(800, 400)`
irrespective of the screen: on a 640×480 screen the invariant is already
violated at initialization. -/
theorem pointer_invariant_init_fails :
    ¬ (0 ≤ demo_start_x ∧ demo_start_x ≤ (640 : Nat) ∧
       0 ≤ demo_start_y ∧ demo_start_y ≤ (480 : Nat)) := by
  decide

/-- C5 (amended): provided the screen is at least 800 wide and 400 high,
the invariant `0 ≤ x ≤ width ∧ 0 ≤ y ≤ height` holds at the fixed
startup position `(800, 400)`, and it is preserved by every `get_mouse`
call that returns. -/
theorem pointer_invariant_amended (width height : Nat) (x y : Int)
    (reads : List ReadResult) (t : Bool) (nx ny : Int)
    (hw : 800 ≤ width) (hh : 400 ≤ height)
    (hx0 : 0 ≤ x) (hxw : x ≤ width) (hy0 : 0 ≤ y) (hyh : y ≤ height)
    (hrun : get_mouse width height x y reads = GMOutcome.ret t nx ny) :
    (0 ≤ demo_start_x ∧ demo_start_x ≤ width ∧
     0 ≤ demo_start_y ∧ demo_start_y ≤ height)
    ∧ (0 ≤ nx ∧ nx ≤ width ∧ 0 ≤ ny ∧ ny ≤ height) := by
  refine ⟨⟨by decide, ?_, by decide, ?_⟩, ?_⟩
  · unfold demo_start_x; exact_mod_cast Int.ofNat_le.mpr hw
  · unfold demo_start_y; omega
  · exact get_mouse_go_inv width height reads x y x y t nx ny
      hx0 hxw hy0 hyh hx0 hxw hy0 hyh hrun

/-- C5 witness: on a 1920×1080 screen, from `(800, 400)`, a motion packet
with deltas `(5, -3)` keeps the invariant (new position `(805, 397)`). -/
theorem pointer_invariant_amended_witness :
    (800 ≤ 1920 ∧ 400 ≤ 1080 ∧ (0 : Int) ≤ 800 ∧ (800 : Int) ≤ (1920 : Nat) ∧
      (0 : Int) ≤ 400 ∧ (400 : Int) ≤ (1080 : Nat) ∧
      get_mouse 1920 1080 800 400 [ReadResult.ok 3 ⟨8, 5, 253⟩]
        = GMOutcome.ret false 805 397) ∧
    ((0 ≤ demo_start_x ∧ demo_start_x ≤ (1920 : Nat) ∧
      0 ≤ demo_start_y ∧ demo_start_y ≤ (1080 : Nat))
     ∧ (0 ≤ (805 : Int) ∧ (805 : Int) ≤ (1920 : Nat) ∧
        0 ≤ (397 : Int) ∧ (397 : Int) ≤ (1080 : Nat))) :=
  ⟨⟨by decide, by decide, by decide, by decide, by decide, by decide, by decide⟩,
    pointer_invariant_amended 1920 1080 800 400 [ReadResult.ok 3 ⟨8, 5, 253⟩]
      false 805 397 (by decide) (by decide) (by decide) (by decide)
      (by decide) (by decide) (by decide)⟩

/-! ## GL machine model and `init_shaders` (C6)

The GL API is an external collaborator (spec section 6).  The model keeps
the pieces the property needs: a pending error code (`get-error`, where 0
means no error), fresh handle allocation, and the GLES rule that
`vertex_attrib_pointer`/`enable_vertex_attrib_array` with an attribute
index not below the implementation's `GL_MAX_VERTEX_ATTRIBS` records
`GL_INVALID_VALUE`.  An oracle supplies the locations that
`get_attrib_location`/`get_uniform_location` return (`-1` when the name
is not found; these lookups do not record a GL error).  `gl_check`
(source lines 10-26) panics when the pending error is non-zero; a panic
is modelled by a sticky `panicked` flag (once set, the process is gone,
so nothing later can unset it). -/

/-- `CubeState` (source lines 181-214); `u32`/`GLuint` fields are `Nat`,
`GLint` fields are `Int`. -/
structure CubeState where
  screen_width : Nat
  screen_height : Nat
  dispman_display : Nat
  dispman_update : Nat
  dispman_element : Nat
  verbose : Nat
  vshader : Nat
  fshader : Nat
  mshader : Nat
  program : Nat
  program2 : Nat
  tex_fb : Nat
  tex : Nat
  buf : Nat
  unif_color : Int
  attr_vertex : Nat
  unif_scale : Int
  unif_offset : Int
  unif_tex : Int
  unif_centre : Int
  attr_vertex2 : Nat
  unif_scale2 : Int
  unif_offset2 : Int
  unif_centre2 : Int
deriving DecidableEq, Repr

/-- `CubeState::new()` (source lines 217-250): everything zeroed except
`verbose = 1`. -/
def CubeState.new : CubeState :=
  { screen_width := 0, screen_height := 0, dispman_display := 0,
    dispman_update := 0, dispman_element := 0, verbose := 1,
    vshader := 0, fshader := 0, mshader := 0, program := 0, program2 := 0,
    tex_fb := 0, tex := 0, buf := 0, unif_color := 0, attr_vertex := 0,
    unif_scale := 0, unif_offset := 0, unif_tex := 0, unif_centre := 0,
    attr_vertex2 := 0, unif_scale2 := 0, unif_offset2 := 0,
    unif_centre2 := 0 }

/-- Environment oracle for the GL collaborator: attribute/uniform
locations per program handle and name, and the implementation's
`GL_MAX_VERTEX_ATTRIBS`. -/
structure GLOracle where
  attribLoc : Nat → String → Int
  uniformLoc : Nat → String → Int
  maxVertexAttribs : Nat

/-- GL machine state: pending error code, next fresh handle, and whether
a `gl_check` has panicked. -/
structure GLS where
  err : Nat
  next : Nat
  panicked : Bool
deriving DecidableEq, Repr

/-- The GL state at program start. -/
def GLS.start : GLS := ⟨0, 1, false⟩

/-- `GL_INVALID_VALUE`. -/
def GL_INVALID_VALUE : Nat := 1281

/-- Allocate a fresh GL object handle (`create_shader`,
`create_program`, `gen_buffers`, `gen_textures`, `gen_framebuffers`). -/
def glGenHandle (g : GLS) : Nat × GLS := (g.next, { g with next := g.next + 1 })

/-- Record an error code; GL keeps the first unretrieved error. -/
def glSetError (code : Nat) (g : GLS) : GLS :=
  if g.err = 0 then { g with err := code } else g

/-- `gl_check()` (source lines 10-26): panic iff `get_error` is
non-zero. -/
def gl_check (g : GLS) : GLS :=
  if g.err ≠ 0 then { g with panicked := true } else g

/-- `Rust i32 → u32` cast (as used in
`gl::get_attrib_location(..) as gl::GLuint`). -/
def toU32 (v : Int) : Nat := (v % 4294967296).toNat

/-- `gl::vertex_attrib_pointer_offset(index, ...)`: GLES records
`GL_INVALID_VALUE` when `index` is not below `GL_MAX_VERTEX_ATTRIBS`. -/
def vertex_attrib_pointer_offset (o : GLOracle) (index : Nat) (g : GLS) : GLS :=
  if o.maxVertexAttribs ≤ index then glSetError GL_INVALID_VALUE g else g

/-- `gl::enable_vertex_attrib_array(index)`: same index rule. -/
def enable_vertex_attrib_array (o : GLOracle) (index : Nat) (g : GLS) : GLS :=
  if o.maxVertexAttribs ≤ index then glSetError GL_INVALID_VALUE g else g

/-- `init_shaders`, first part (source lines 278-344): compile the three
shaders, link the two programs, and resolve every attribute/uniform
location.  Calls that cannot record an error in the model
(`shader_source`, `compile_shader`, `attach_shader`, `link_program`,
the info-log prints) appear only through the `gl_check`s the source
places after them.  Note the resolved locations are stored without any
inspection: the attribute locations only pass through the `i32 → u32`
cast. -/
def init_shaders_locate (o : GLOracle) (st : CubeState) (g : GLS) :
    CubeState × GLS :=
  let (vshader, g) := glGenHandle g
  let g := gl_check g
  let (fshader, g) := glGenHandle g
  let g := gl_check g
  let (mshader, g) := glGenHandle g
  let g := gl_check g
  let (program, g) := glGenHandle g
  let g := gl_check g
  let attr_vertex := toU32 (o.attribLoc program "vertex")
  let g := gl_check g
  let unif_color := o.uniformLoc program "color"
  let g := gl_check g
  let unif_scale := o.uniformLoc program "scale"
  let g := gl_check g
  let unif_offset := o.uniformLoc program "offset"
  let g := gl_check g
  let unif_tex := o.uniformLoc program "tex"
  let g := gl_check g
  let unif_centre := o.uniformLoc program "centre"
  let g := gl_check g
  let (program2, g) := glGenHandle g
  let g := gl_check g
  let g := gl_check g
  let g := gl_check g
  let g := gl_check g
  let attr_vertex2 := toU32 (o.attribLoc program2 "vertex")
  let unif_scale2 := o.uniformLoc program2 "scale"
  let unif_offset2 := o.uniformLoc program2 "offset"
  let unif_centre2 := o.uniformLoc program2 "centre"
  let g := gl_check g
  ({ st with
      vshader := vshader
      fshader := fshader
      mshader := mshader
      program := program
      attr_vertex := attr_vertex
      unif_color := unif_color
      unif_scale := unif_scale
      unif_offset := unif_offset
      unif_tex := unif_tex
      unif_centre := unif_centre
      program2 := program2
      attr_vertex2 := attr_vertex2
      unif_scale2 := unif_scale2
      unif_offset2 := unif_offset2
      unif_centre2 := unif_centre2 }, g)

/-- `init_shaders`, second part (source lines 346-425): buffer, texture
and framebuffer setup, then the vertex-attribute array setup using the
stored attribute locations, ending in a final `gl_check`. -/
def init_shaders_setup (o : GLOracle) (st : CubeState) (g : GLS) :
    CubeState × GLS :=
  let (buf, g) := glGenHandle g
  let g := gl_check g
  let (tex, g) := glGenHandle g
  let g := gl_check g
  let g := gl_check g
  let g := gl_check g
  let g := gl_check g
  let (tex_fb, g) := glGenHandle g
  let g := gl_check g
  let g := gl_check g
  let g := gl_check g
  let g := gl_check g
  let g := gl_check g
  let g := vertex_attrib_pointer_offset o st.attr_vertex g
  let g := enable_vertex_attrib_array o st.attr_vertex g
  let g := vertex_attrib_pointer_offset o st.attr_vertex2 g
  let g := enable_vertex_attrib_array o st.attr_vertex2 g
  let g := gl_check g
  ({ st with
      buf := buf
      tex := tex
      tex_fb := tex_fb }, g)

/-- `init_shaders` (source lines 278-425). -/
def init_shaders (o : GLOracle) (st : CubeState) (g : GLS) :
    CubeState × GLS :=
  let (st, g) := init_shaders_locate o st g
  init_shaders_setup o st g

/-- An environment in which the `vertex` attribute of every program
resolves to the `-1` sentinel, every uniform resolves fine, and the
implementation supports 16 vertex attributes. -/
def missingVertexOracle : GLOracle where
  attribLoc := fun _ name => if name = "vertex" then -1 else 0
  uniformLoc := fun _ _ => 0
  maxVertexAttribs := 16

/-- C6 counterexample: when `locate` yields the `-1` sentinel for the
required attribute `vertex`, the caller does not treat it as fatal —
the whole location-resolution phase of `init_shaders` runs to its end
without any abort (`panicked = false` after the `gl_check` at source
line 344), and the sentinel is simply cast to the unsigned index
`4294967295` and stored. -/
theorem init_shaders_sentinel_unchecked :
    (init_shaders_locate missingVertexOracle CubeState.new GLS.start).2.panicked
        = false
    ∧ (init_shaders_locate missingVertexOracle CubeState.new GLS.start).1.attr_vertex
        = 4294967295
    ∧ (init_shaders_locate missingVertexOracle CubeState.new GLS.start).2.err
        = 0 :=
  ⟨rfl, rfl, rfl⟩

/-- C6 (amended): the caller never inspects the resolved location — a
`-1` sentinel for the required `vertex` attribute is cast to `4294967295`
and initialization continues — but that out-of-range index makes the
vertex-attribute array setup record `GL_INVALID_VALUE`, so the final
`gl_check` of `init_shaders` panics (for any real implementation limit):
initialization still aborts, with the generic GL-error diagnostic,
before rendering can start with the attribute unresolved. -/
lemma glSetError_of_err_ne (c : Nat) (g : GLS) (h : g.err ≠ 0) :
    glSetError c g = g := by
  rw [glSetError, if_neg h]

lemma vertex_attrib_pointer_offset_of_err_ne (o : GLOracle) (i : Nat)
    (g : GLS) (h : g.err ≠ 0) : vertex_attrib_pointer_offset o i g = g := by
  rw [vertex_attrib_pointer_offset]
  split
  · exact glSetError_of_err_ne _ _ h
  · rfl

lemma enable_vertex_attrib_array_of_err_ne (o : GLOracle) (i : Nat)
    (g : GLS) (h : g.err ≠ 0) : enable_vertex_attrib_array o i g = g := by
  rw [enable_vertex_attrib_array]
  split
  · exact glSetError_of_err_ne _ _ h
  · rfl

lemma init_shaders_locate_eval (o : GLOracle) :
    init_shaders_locate o CubeState.new GLS.start
      = ({ CubeState.new with
            vshader := 1
            fshader := 2
            mshader := 3
            program := 4
            attr_vertex := toU32 (o.attribLoc 4 "vertex")
            unif_color := o.uniformLoc 4 "color"
            unif_scale := o.uniformLoc 4 "scale"
            unif_offset := o.uniformLoc 4 "offset"
            unif_tex := o.uniformLoc 4 "tex"
            unif_centre := o.uniformLoc 4 "centre"
            program2 := 5
            attr_vertex2 := toU32 (o.attribLoc 5 "vertex")
            unif_scale2 := o.uniformLoc 5 "scale"
            unif_offset2 := o.uniformLoc 5 "offset"
            unif_centre2 := o.uniformLoc 5 "centre" }, ⟨0, 6, false⟩) := rfl

lemma init_shaders_setup_invalid_attr (o : GLOracle) (st : CubeState)
    (n : Nat) (hmax : o.maxVertexAttribs ≤ st.attr_vertex) :
    (init_shaders_setup o st ⟨0, n, false⟩).2.panicked = true := by
  have h0 : ∀ m, gl_check ⟨0, m, false⟩ = ⟨0, m, false⟩ := fun _ => rfl
  have h1 : vertex_attrib_pointer_offset o st.attr_vertex ⟨0, n + 3, false⟩
      = ⟨GL_INVALID_VALUE, n + 3, false⟩ := by
    rw [vertex_attrib_pointer_offset, if_pos hmax]; rfl
  simp only [init_shaders_setup, glGenHandle, h0, h1]
  rw [enable_vertex_attrib_array_of_err_ne o st.attr_vertex
      ⟨GL_INVALID_VALUE, n + 3, false⟩ (by simp [GL_INVALID_VALUE])]
  rw [vertex_attrib_pointer_offset_of_err_ne o st.attr_vertex2
      ⟨GL_INVALID_VALUE, n + 3, false⟩ (by simp [GL_INVALID_VALUE])]
  rw [enable_vertex_attrib_array_of_err_ne o st.attr_vertex2
      ⟨GL_INVALID_VALUE, n + 3, false⟩ (by simp [GL_INVALID_VALUE])]
  rfl

theorem init_shaders_missing_vertex_panics (o : GLOracle)
    (hv : o.attribLoc 4 "vertex" = -1)
    (hmax : o.maxVertexAttribs ≤ 4294967295) :
    (init_shaders o CubeState.new GLS.start).2.panicked = true := by
  have hcast : toU32 (o.attribLoc 4 "vertex") = 4294967295 := by
    rw [hv]; decide
  simp only [init_shaders, init_shaders_locate_eval o]
  exact init_shaders_setup_invalid_attr o _ 6 (by simpa [hcast] using hmax)

/-- C6 amended witness: the concrete missing-`vertex` environment. -/
theorem init_shaders_missing_vertex_panics_witness :
    (missingVertexOracle.attribLoc 4 "vertex" = -1
      ∧ missingVertexOracle.maxVertexAttribs ≤ 4294967295)
    ∧ (init_shaders missingVertexOracle CubeState.new GLS.start).2.panicked
        = true :=
  ⟨⟨by decide, by decide⟩,
    init_shaders_missing_vertex_panics missingVertexOracle
      (by decide) (by decide)⟩

/-! ## GL call traces and the `demo` main loop (C7, C8, C9)

For the sequencing properties the relevant functions are embedded a
second time as the sequence of GL/context calls they issue (the trace),
parameterized by the `CubeState` whose fields they read.  Calls with
`GLfloat` payloads carry no payload in the trace (`uniform2fF`), except
the Julia `offset` uniform, whose two arguments are the `i32` pointer
coordinates cast to `GLfloat` (`uniform2fI` keeps them as `Int`). -/

/-- `gl::GL_ARRAY_BUFFER`. -/
def GL_ARRAY_BUFFER : Nat := 34962

/-- `gl::GL_TEXTURE_2D`. -/
def GL_TEXTURE_2D : Nat := 3553

/-- `gl::GL_TRIANGLE_FAN`. -/
def GL_TRIANGLE_FAN : Nat := 6

/-- `gl::GL_VERTEX_SHADER`. -/
def GL_VERTEX_SHADER : Nat := 35633

/-- `gl::GL_FRAGMENT_SHADER`. -/
def GL_FRAGMENT_SHADER : Nat := 35632

/-- One observable call of the core: the GL calls the source issues plus
the windowing collaborator's `swap_buffers`. -/
inductive Ev where
  | clearColor
  | clear
  | getError
  | createShader (stage : Nat)
  | shaderSource
  | compileShader
  | infoLog
  | createProgram
  | attachShader
  | linkProgram
  | getAttribLocation (name : String)
  | getUniformLocation (name : String)
  | genBuffers
  | genTextures
  | bindTexture (target tex : Nat)
  | texImage2D (w h : Nat)
  | texParameterf
  | genFramebuffers
  | bindFramebuffer (fb : Nat)
  | framebufferTexture2D (tex : Nat)
  | viewport (w h : Nat)
  | bindBuffer (target buf : Nat)
  | bufferData
  | vertexAttribPointer (index : Nat)
  | enableVertexAttribArray (index : Nat)
  | useProgram (p : Nat)
  | uniform4f (loc : Int)
  | uniform2fF (loc : Int)
  | uniform2fI (loc : Int) (x y : Int)
  | uniform1i (loc : Int) (v : Int)
  | drawArrays (mode first count : Nat)
  | flush
  | finish
  | swapBuffers
deriving DecidableEq, Repr

/-- Is this event a `tex_image_2d` upload? -/
def Ev.isTexImage2D : Ev → Bool
  | Ev.texImage2D _ _ => true
  | _ => false

/-- Is this event a draw call? -/
def Ev.isDraw : Ev → Bool
  | Ev.drawArrays _ _ _ => true
  | _ => false

/-- `init_ogl` (source lines 264-276): clear color, clear, `gl_check`
(the screen-size reads touch no GL object state). -/
def init_ogl_trace : List Ev :=
  [Ev.clearColor, Ev.clear, Ev.getError]

/-- The GL calls of `init_shaders` (source lines 279-424), in order;
`verbose` is 1 for the whole program so the info-log reads happen. -/
def init_shaders_trace (s : CubeState) : List Ev :=
  [Ev.createShader GL_VERTEX_SHADER, Ev.shaderSource, Ev.compileShader,
    Ev.getError, Ev.infoLog,
    Ev.createShader GL_FRAGMENT_SHADER, Ev.shaderSource, Ev.compileShader,
    Ev.getError, Ev.infoLog,
    Ev.createShader GL_FRAGMENT_SHADER, Ev.shaderSource, Ev.compileShader,
    Ev.getError, Ev.infoLog,
    Ev.createProgram, Ev.attachShader, Ev.attachShader, Ev.linkProgram,
    Ev.getError, Ev.infoLog,
    Ev.getAttribLocation "vertex", Ev.getError,
    Ev.getUniformLocation "color", Ev.getError,
    Ev.getUniformLocation "scale", Ev.getError,
    Ev.getUniformLocation "offset", Ev.getError,
    Ev.getUniformLocation "tex", Ev.getError,
    Ev.getUniformLocation "centre", Ev.getError,
    Ev.createProgram, Ev.getError, Ev.attachShader, Ev.getError,
    Ev.attachShader, Ev.getError, Ev.linkProgram, Ev.getError,
    Ev.getAttribLocation "vertex", Ev.getUniformLocation "scale",
    Ev.getUniformLocation "offset", Ev.getUniformLocation "centre",
    Ev.getError,
    Ev.clearColor,
    Ev.genBuffers, Ev.getError,
    Ev.genTextures, Ev.getError,
    Ev.bindTexture GL_TEXTURE_2D s.tex, Ev.getError,
    Ev.texImage2D s.screen_width s.screen_height, Ev.getError,
    Ev.texParameterf, Ev.texParameterf, Ev.getError,
    Ev.genFramebuffers, Ev.getError,
    Ev.bindFramebuffer s.tex_fb, Ev.getError,
    Ev.framebufferTexture2D s.tex, Ev.getError,
    Ev.bindFramebuffer 0, Ev.getError,
    Ev.viewport s.screen_width s.screen_height, Ev.getError,
    Ev.bindBuffer GL_ARRAY_BUFFER s.buf, Ev.bufferData,
    Ev.vertexAttribPointer s.attr_vertex,
    Ev.enableVertexAttribArray s.attr_vertex,
    Ev.vertexAttribPointer s.attr_vertex2,
    Ev.enableVertexAttribArray s.attr_vertex2,
    Ev.getError]

/-- The GL calls of `draw_mandelbrot_to_texture` (source lines 427-450):
bind the offscreen framebuffer, draw the quad with the Mandelbrot
program, then `flush`, `finish`, `gl_check`. -/
def draw_mandelbrot_to_texture_trace (s : CubeState) : List Ev :=
  [Ev.bindFramebuffer s.tex_fb, Ev.getError,
    Ev.bindBuffer GL_ARRAY_BUFFER s.buf,
    Ev.useProgram s.program2, Ev.getError,
    Ev.uniform2fF s.unif_scale2, Ev.uniform2fF s.unif_centre2, Ev.getError,
    Ev.drawArrays GL_TRIANGLE_FAN 0 4, Ev.getError,
    Ev.flush, Ev.finish, Ev.getError]

/-- The GL calls of `draw_triangles` (source lines 452-487): bind the
default framebuffer, draw the quad with the Julia program — sampling the
prerendered texture, with `offset` set to the pointer position — then
`flush`, `finish`, `gl_check`. -/
def draw_triangles_trace (s : CubeState) (x y : Int) : List Ev :=
  [Ev.bindFramebuffer 0, Ev.clear, Ev.getError,
    Ev.bindBuffer GL_ARRAY_BUFFER s.buf, Ev.getError,
    Ev.useProgram s.program, Ev.getError,
    Ev.bindTexture GL_TEXTURE_2D s.tex, Ev.getError,
    Ev.uniform4f s.unif_color, Ev.uniform2fF s.unif_scale,
    Ev.uniform2fI s.unif_offset x y, Ev.uniform2fF s.unif_centre,
    Ev.uniform1i s.unif_tex 0, Ev.getError,
    Ev.drawArrays GL_TRIANGLE_FAN 0 4, Ev.getError,
    Ev.bindBuffer GL_ARRAY_BUFFER 0,
    Ev.flush, Ev.finish, Ev.getError]

/-- Bound framebuffer after a trace, starting from `cur` (0 is the
default on-screen framebuffer). -/
def fbAfterFold (cur : Nat) : List Ev → Nat
  | [] => cur
  | e :: r =>
      match e with
      | Ev.bindFramebuffer f => fbAfterFold f r
      | _ => fbAfterFold cur r

/-- Number of draw calls issued while framebuffer `target` is bound,
starting with `cur` bound. -/
def drawsIntoGo (cur target : Nat) : List Ev → Nat
  | [] => 0
  | e :: r =>
      match e with
      | Ev.bindFramebuffer f => drawsIntoGo f target r
      | Ev.drawArrays _ _ _ =>
          (if cur = target then 1 else 0) + drawsIntoGo cur target r
      | _ => drawsIntoGo cur target r

/-- Is GPU work still pending after a trace?  A draw call queues work; a
`finish` blocks until everything queued has completed. -/
def gpuPending (pending : Bool) : List Ev → Bool
  | [] => pending
  | e :: r =>
      match e with
      | Ev.drawArrays _ _ _ => gpuPending true r
      | Ev.finish => gpuPending false r
      | _ => gpuPending pending r

lemma fbAfterFold_append (a b : List Ev) :
    ∀ cur, fbAfterFold cur (a ++ b) = fbAfterFold (fbAfterFold cur a) b := by
  induction a with
  | nil => intro cur; rfl
  | cons e r ih =>
      intro cur
      cases e <;> simp only [List.cons_append, fbAfterFold] <;> exact ih _

lemma drawsIntoGo_append (target : Nat) (a b : List Ev) :
    ∀ cur, drawsIntoGo cur target (a ++ b)
      = drawsIntoGo cur target a + drawsIntoGo (fbAfterFold cur a) target b := by
  induction a with
  | nil => intro cur; simp [drawsIntoGo, fbAfterFold]
  | cons e r ih =>
      intro cur
      cases e <;>
        simp only [List.cons_append, drawsIntoGo, fbAfterFold,
          List.append_eq] <;>
          first
            | exact ih _
            | (rw [ih _]; omega)

/-- The environment one main-loop iteration can consume: whether an
`OpenOptions::open("/dev/input/mouse0")` attempt would succeed, and the
read outcomes a `get_mouse` call would see. -/
structure IterEnv where
  openOk : Bool
  reads : List ReadResult

/-- Result of running the `demo` main loop against a finite environment:
`terminated` (a click broke the loop), `running` (environment exhausted,
loop still going — it has no other exit), or `stuck` (the modelled reads
ran out inside a `get_mouse` call). -/
inductive LoopOutcome where
  | terminated (tr : List Ev) (x y : Int)
  | running (tr : List Ev) (devOpen : Bool) (x y : Int)
  | stuck (tr : List Ev)
deriving DecidableEq, Repr

/-- Prepend already-emitted events to an outcome's trace. -/
def LoopOutcome.prepend (t : List Ev) : LoopOutcome → LoopOutcome
  | LoopOutcome.terminated tr x y => LoopOutcome.terminated (t ++ tr) x y
  | LoopOutcome.running tr d x y => LoopOutcome.running (t ++ tr) d x y
  | LoopOutcome.stuck tr => LoopOutcome.stuck (t ++ tr)

/-- The events an outcome carries. -/
def LoopOutcome.trace : LoopOutcome → List Ev
  | LoopOutcome.terminated tr _ _ => tr
  | LoopOutcome.running tr _ _ _ => tr
  | LoopOutcome.stuck tr => tr

/-- Did the loop exit? -/
def LoopOutcome.isTerminated : LoopOutcome → Bool
  | LoopOutcome.terminated _ _ _ => true
  | _ => false

/-- The events of one non-exiting loop iteration after the device match:
`draw_triangles(state, cx, cy, 0.003, x, y); context.swap_buffers();
gl_check();` (source lines 603-605). -/
def julia_frame (s : CubeState) (x y : Int) : List Ev :=
  draw_triangles_trace s x y ++ [Ev.swapBuffers, Ev.getError]

/-- The `while !terminate` loop of `demo` (source lines 581-606).
`terminate` is initialized `false` and never reassigned, so the `match`
on the device option runs every iteration: with the device not yet open
an open attempt is made (failure ignored) and the iteration still draws
a Julia frame and swaps; with the device open, `get_mouse` runs first
and a `true` result breaks out of the loop before any drawing. -/
def demo_loop (s : CubeState) : Bool → Int → Int → List IterEnv → LoopOutcome
  | dev, x, y, [] => LoopOutcome.running [] dev x y
  | false, x, y, e :: rest =>
      (demo_loop s e.openOk x y rest).prepend (julia_frame s x y)
  | true, x, y, e :: rest =>
      match get_mouse s.screen_width s.screen_height x y e.reads with
      | GMOutcome.ret true nx ny => LoopOutcome.terminated [] nx ny
      | GMOutcome.ret false nx ny =>
          (demo_loop s true nx ny rest).prepend (julia_frame s nx ny)
      | GMOutcome.outOfInput => LoopOutcome.stuck []

/-- Everything `demo` (source lines 559-607) does before its loop:
`init_ogl`, `init_shaders`, then the one `draw_mandelbrot_to_texture`
call. -/
def demo_trace_pre (s : CubeState) : List Ev :=
  init_ogl_trace ++ init_shaders_trace s ++ draw_mandelbrot_to_texture_trace s

/-- `demo`: prerender once, then loop from `(800, 400)` with the device
not yet open. -/
def demo (s : CubeState) (envs : List IterEnv) : LoopOutcome :=
  (demo_loop s false demo_start_x demo_start_y envs).prepend (demo_trace_pre s)

/-- Does the run see a decode returning `terminate = true`?  (Mirrors
`demo_loop`'s control flow on the same environment.) -/
def clickSeen (w h : Nat) : Bool → Int → Int → List IterEnv → Bool
  | _, _, _, [] => false
  | false, x, y, e :: rest => clickSeen w h e.openOk x y rest
  | true, x, y, e :: rest =>
      match get_mouse w h x y e.reads with
      | GMOutcome.ret true _ _ => true
      | GMOutcome.ret false nx ny => clickSeen w h true nx ny rest
      | GMOutcome.outOfInput => false

lemma LoopOutcome.prepend_trace (t : List Ev) (o : LoopOutcome) :
    (o.prepend t).trace = t ++ o.trace := by
  cases o <;> rfl

lemma LoopOutcome.prepend_isTerminated (t : List Ev) (o : LoopOutcome) :
    (o.prepend t).isTerminated = o.isTerminated := by
  cases o <;> rfl

lemma drawsIntoGo_julia_frame (s : CubeState) (x y : Int) (c tg : Nat)
    (htg : tg ≠ 0) : drawsIntoGo c tg (julia_frame s x y) = 0 := by
  have h0 : ¬ (0 : Nat) = tg := fun h => htg h.symm
  simp [julia_frame, draw_triangles_trace, drawsIntoGo, h0]

lemma fbAfterFold_julia_frame (s : CubeState) (x y : Int) (c : Nat) :
    fbAfterFold c (julia_frame s x y) = 0 := rfl

lemma demo_loop_draws_into_offscreen (s : CubeState) (htf : s.tex_fb ≠ 0)
    (envs : List IterEnv) :
    ∀ (dev : Bool) (x y : Int) (c : Nat),
    drawsIntoGo c s.tex_fb ((demo_loop s dev x y envs).trace) = 0 := by
  induction envs with
  | nil => intro dev x y c; cases dev <;> rfl
  | cons e rest ih =>
      intro dev x y c
      cases dev
      · rw [demo_loop, LoopOutcome.prepend_trace, drawsIntoGo_append,
          drawsIntoGo_julia_frame s x y c _ htf,
          fbAfterFold_julia_frame, ih]
      · rw [demo_loop]
        cases hgm : get_mouse s.screen_width s.screen_height x y e.reads with
        | outOfInput => rfl
        | ret t nx ny =>
            cases t
            · rw [LoopOutcome.prepend_trace, drawsIntoGo_append,
                drawsIntoGo_julia_frame s nx ny c _ htf,
                fbAfterFold_julia_frame, ih]
            · rfl

lemma julia_frame_no_teximage (s : CubeState) (x y : Int) :
    (julia_frame s x y).all (fun e => ! e.isTexImage2D) = true := rfl

lemma demo_loop_no_teximage (s : CubeState) (envs : List IterEnv) :
    ∀ (dev : Bool) (x y : Int),
    ((demo_loop s dev x y envs).trace.all (fun e => ! e.isTexImage2D))
      = true := by
  induction envs with
  | nil => intro dev x y; cases dev <;> rfl
  | cons e rest ih =>
      intro dev x y
      cases dev
      · rw [demo_loop, LoopOutcome.prepend_trace, List.all_append,
          julia_frame_no_teximage, Bool.true_and, ih]
      · rw [demo_loop]
        cases hgm : get_mouse s.screen_width s.screen_height x y e.reads with
        | outOfInput => rfl
        | ret t nx ny =>
            cases t
            · rw [LoopOutcome.prepend_trace, List.all_append,
                julia_frame_no_teximage, Bool.true_and, ih]
            · rfl

/-- C7: the Mandelbrot prerender is the only draw into the offscreen
framebuffer and it happens in `demo`'s pre-loop part; the loop part —
whatever the environment does, starting from any bound framebuffer —
never draws into it and never re-uploads the texture image, and every
Julia frame starts by binding the default framebuffer `0` and binds the
prerendered texture only for sampling. -/
theorem mandelbrot_prerender_once (s : CubeState) (envs : List IterEnv)
    (dev : Bool) (x y : Int) (c : Nat) (htf : s.tex_fb ≠ 0) :
    ((demo s envs).trace
        = demo_trace_pre s
          ++ (demo_loop s false demo_start_x demo_start_y envs).trace)
    ∧ drawsIntoGo 0 s.tex_fb (demo_trace_pre s) = 1
    ∧ drawsIntoGo c s.tex_fb ((demo_loop s dev x y envs).trace) = 0
    ∧ ((demo_loop s dev x y envs).trace.all (fun e => ! e.isTexImage2D))
        = true
    ∧ (draw_triangles_trace s x y).head? = some (Ev.bindFramebuffer 0)
    ∧ Ev.bindTexture GL_TEXTURE_2D s.tex ∈ draw_triangles_trace s x y := by
  refine ⟨LoopOutcome.prepend_trace _ _, ?_, ?_, ?_, rfl, ?_⟩
  · simp [demo_trace_pre, init_ogl_trace, init_shaders_trace,
      draw_mandelbrot_to_texture_trace, drawsIntoGo]
  · exact demo_loop_draws_into_offscreen s htf envs dev x y c
  · exact demo_loop_no_teximage s envs dev x y
  · simp [draw_triangles_trace]

/-- A representative post-initialization `CubeState` (handles as the GL
machine model allocates them, 1920×1080 screen). -/
def sampleState : CubeState :=
  { CubeState.new with
      screen_width := 1920
      screen_height := 1080
      vshader := 1
      fshader := 2
      mshader := 3
      program := 4
      program2 := 5
      buf := 6
      tex := 7
      tex_fb := 8 }

/-- A small loop environment: one iteration with the device still
closed, then one with it open delivering a motion packet. -/
def sampleEnvs : List IterEnv :=
  [⟨false, []⟩, ⟨true, [ReadResult.ok 3 ⟨8, 5, 3⟩]⟩]

/-- C7 witness: the concrete post-initialization state and environment. -/
theorem mandelbrot_prerender_once_witness :
    sampleState.tex_fb ≠ 0 ∧
    (((demo sampleState sampleEnvs).trace
        = demo_trace_pre sampleState
          ++ (demo_loop sampleState false demo_start_x demo_start_y
                sampleEnvs).trace)
    ∧ drawsIntoGo 0 sampleState.tex_fb (demo_trace_pre sampleState) = 1
    ∧ drawsIntoGo 0 sampleState.tex_fb
        ((demo_loop sampleState false 800 400 sampleEnvs).trace) = 0
    ∧ ((demo_loop sampleState false 800 400 sampleEnvs).trace.all
        (fun e => ! e.isTexImage2D)) = true
    ∧ (draw_triangles_trace sampleState 800 400).head?
        = some (Ev.bindFramebuffer 0)
    ∧ Ev.bindTexture GL_TEXTURE_2D sampleState.tex
        ∈ draw_triangles_trace sampleState 800 400) :=
  ⟨by decide,
    mandelbrot_prerender_once sampleState sampleEnvs false 800 400 0
      (by decide)⟩

/-- C8: both draw passes — the Mandelbrot prerender and the per-frame
Julia draw — issue their draw call and then `flush` followed by `finish`
(with only the `gl_check` read after it) before returning, with no draw
between the draw call and the sync; consequently neither pass returns
with GPU work still pending, whatever was pending when it started. -/
theorem draw_passes_end_synced (s : CubeState) (x y : Int) (p : Bool) :
    (∃ pre mid,
      draw_mandelbrot_to_texture_trace s
        = pre ++ [Ev.drawArrays GL_TRIANGLE_FAN 0 4] ++ mid
            ++ [Ev.flush, Ev.finish, Ev.getError]
      ∧ mid.all (fun e => ! e.isDraw) = true)
    ∧ (∃ pre mid,
      draw_triangles_trace s x y
        = pre ++ [Ev.drawArrays GL_TRIANGLE_FAN 0 4] ++ mid
            ++ [Ev.flush, Ev.finish, Ev.getError]
      ∧ mid.all (fun e => ! e.isDraw) = true)
    ∧ gpuPending p (draw_mandelbrot_to_texture_trace s) = false
    ∧ gpuPending p (draw_triangles_trace s x y) = false := by
  refine ⟨⟨[Ev.bindFramebuffer s.tex_fb, Ev.getError,
      Ev.bindBuffer GL_ARRAY_BUFFER s.buf, Ev.useProgram s.program2,
      Ev.getError, Ev.uniform2fF s.unif_scale2, Ev.uniform2fF s.unif_centre2,
      Ev.getError], [Ev.getError], rfl, rfl⟩,
    ⟨[Ev.bindFramebuffer 0, Ev.clear, Ev.getError,
      Ev.bindBuffer GL_ARRAY_BUFFER s.buf, Ev.getError,
      Ev.useProgram s.program, Ev.getError,
      Ev.bindTexture GL_TEXTURE_2D s.tex, Ev.getError,
      Ev.uniform4f s.unif_color, Ev.uniform2fF s.unif_scale,
      Ev.uniform2fI s.unif_offset x y, Ev.uniform2fF s.unif_centre,
      Ev.uniform1i s.unif_tex 0, Ev.getError],
      [Ev.getError, Ev.bindBuffer GL_ARRAY_BUFFER 0], rfl, rfl⟩,
    rfl, rfl⟩

lemma demo_loop_term_iff_click (s : CubeState) (envs : List IterEnv) :
    ∀ (dev : Bool) (x y : Int),
    (demo_loop s dev x y envs).isTerminated
      = clickSeen s.screen_width s.screen_height dev x y envs := by
  induction envs with
  | nil => intro dev x y; cases dev <;> rfl
  | cons e rest ih =>
      intro dev x y
      cases dev
      · rw [demo_loop, clickSeen, LoopOutcome.prepend_isTerminated, ih]
      · rw [demo_loop, clickSeen]
        cases hgm : get_mouse s.screen_width s.screen_height x y e.reads with
        | outOfInput => rfl
        | ret t nx ny =>
            cases t
            · rw [LoopOutcome.prepend_isTerminated, ih]
            · rfl

/-- C9: the main loop's one-iteration behavior and its only exit.  With
the device not yet open, the iteration attempts the open and still emits
one Julia frame (at the current pointer position) followed by the buffer
swap; with the device open and decode reporting no terminate, likewise
at the updated position; decode reporting terminate breaks the loop
immediately (no frame, no swap); and over any environment the loop ends
in the `terminated` state exactly when some decode returned
`terminate = true` — there is no other exit. -/
theorem main_loop_exit_only_click (s : CubeState) (e : IterEnv)
    (rest envs : List IterEnv) (x y : Int) (dev : Bool) :
    (demo_loop s false x y (e :: rest)
        = (demo_loop s e.openOk x y rest).prepend (julia_frame s x y))
    ∧ (∀ nx ny, get_mouse s.screen_width s.screen_height x y e.reads
          = GMOutcome.ret false nx ny →
        demo_loop s true x y (e :: rest)
          = (demo_loop s true nx ny rest).prepend (julia_frame s nx ny))
    ∧ (∀ nx ny, get_mouse s.screen_width s.screen_height x y e.reads
          = GMOutcome.ret true nx ny →
        demo_loop s true x y (e :: rest) = LoopOutcome.terminated [] nx ny)
    ∧ ((demo_loop s dev x y envs).isTerminated
        = clickSeen s.screen_width s.screen_height dev x y envs) := by
  refine ⟨rfl, ?_, ?_, demo_loop_term_iff_click s envs dev x y⟩
  · intro nx ny h; rw [demo_loop, h]
  · intro nx ny h; rw [demo_loop, h]
